import Mathlib

/-!
Verification development for the featureform coordinator and runner package.

The runner package (MaterializeRunner, WatcherMultiplex) is embedded directly
from its Go source.  Go errors are modelled by their message strings, provider
calls by an explicit call trace, and the behaviour of the external providers
(offline store, online store, kubernetes, local runner creation) by environment
records holding the result each call would return.  Go int64 values are
modelled by Int (no arithmetic in the embedded code paths overflows for the
row counts considered), and Go integer division, which truncates toward zero,
by Int.tdiv.

The coordinator itself (templateReplace, mapNameVariantsToTables, the job
spawners and the job success routine) is modelled from the specification, as
marked on each definition.
-/

namespace Featureform

deriving instance DecidableEq for Except

/-- Go errors are modelled by their message string. -/
abbrev GoErr := String

/-- Constant MAXIMUM_CHUNK_ROWS from the runner package (int64). -/
def MAXIMUM_CHUNK_ROWS : Int := 1024

/-- Constant WORKER_IMAGE from the runner package. -/
def WORKER_IMAGE : String := "featureformcom/worker"

/-- JobCloud is a Go string type. -/
abbrev JobCloud := String

/-- JobCloud constant KubernetesMaterializeRunner. -/
def KubernetesMaterializeRunner : JobCloud := "KUBERNETES"

/-- JobCloud constant LocalMaterializeRunner. -/
def LocalMaterializeRunner : JobCloud := "LOCAL"

/-- Runner name COPY_TO_ONLINE (declared outside the given file; value per the
spec, section 4.3, which lists the runner names). -/
def COPY_TO_ONLINE : String := "COPY_TO_ONLINE"

/-- provider.ResourceID: (Name, Variant, Type).  The Go Type field is a
provider offline resource kind; it is renamed RType here because Type is a
Lean keyword. -/
structure ProviderResourceID where
  Name : String
  Variant : String
  RType : String
deriving DecidableEq

/-- A provider Materialization handle: its ID() and the result its NumRows()
call returns (int64 or error). -/
structure Materialization where
  idRes : String
  numRowsRes : Except GoErr Int
deriving DecidableEq

/-- Result of OnlineStore.CreateTable: success, the typed
provider.TableAlreadyExists error, or any other error. -/
inductive CreateTableRes where
  | ok
  | alreadyExists
  | failed (e : GoErr)
deriving DecidableEq

/-- An OnlineStore as seen by MaterializeRunner.Run: its Type(), Config() and
the result its CreateTable call would return. -/
structure OnlineStore where
  typeTag : String
  config : String
  createTableRes : CreateTableRes
deriving DecidableEq

/-- An OfflineStore as seen by MaterializeRunner.Run: its Type(), Config() and
the result its CreateMaterialization call would return. -/
structure OfflineStore where
  typeTag : String
  config : String
  createMatRes : Except GoErr Materialization
deriving DecidableEq

/-- The MaterializeRunner struct from the runner package. -/
structure MaterializeRunner where
  Online : OnlineStore
  Offline : OfflineStore
  ID : ProviderResourceID
  VType : String
  Cloud : JobCloud
deriving DecidableEq

/-- Lines 78 to 94 of the runner source, the chunk arithmetic of
MaterializeRunner.Run, verbatim: chunkSize starts at MAXIMUM_CHUNK_ROWS and
numChunks at 0, then the if/else-if chain runs.  Go int64 division truncates
toward zero, hence Int.tdiv. -/
def chunkParams (numRows : Int) : Int × Int :=
  let chunkSize := MAXIMUM_CHUNK_ROWS
  if numRows ≤ MAXIMUM_CHUNK_ROWS then
    (numRows, 1)
  else if chunkSize = 0 then
    (chunkSize, 0)
  else if numRows > chunkSize then
    let numChunks := Int.tdiv numRows chunkSize
    if chunkSize * numChunks < numRows then
      (chunkSize, numChunks + 1)
    else
      (chunkSize, numChunks)
  else
    (chunkSize, 0)

/-- The MaterializedChunkRunnerConfig built by MaterializeRunner.Run
(lines 95 to 103 of the runner source).  These are exactly the fields the
source sets; there is no chunk-index field. -/
structure MaterializedChunkRunnerConfig where
  OnlineType : String
  OfflineType : String
  OnlineConfig : String
  OfflineConfig : String
  MaterializedID : String
  ResourceID : ProviderResourceID
  ChunkSize : Int
deriving DecidableEq

/-- Config.Serialize() is a JSON marshal of the struct, which is injective and
never fails on this struct; the serialized bytes are therefore modelled by the
config value itself. -/
abbrev SerializedConfig := MaterializedChunkRunnerConfig

/-- An environment-variable value: a plain string or serialized config bytes. -/
inductive EnvVal where
  | str (s : String)
  | cfg (c : SerializedConfig)
deriving DecidableEq

/-- The KubernetesRunnerConfig built in the KUBERNETES branch of Run.
NumTasks is int32(numChunks) in Go; the conversion is kept as the Int value. -/
structure KubernetesRunnerConfig where
  EnvVars : List (String × EnvVal)
  Image : String
  NumTasks : Int
deriving DecidableEq

/-- Provider and submission side effects performed by MaterializeRunner.Run,
in order. -/
inductive Call where
  | createMaterialization
  | createTable
  | numRows
  | kubernetesCreate
  | kubernetesRun
  | localCreate (i : Nat)
  | localRun (i : Nat)
deriving DecidableEq

/-- Results that the external collaborators of Run would return:
NewKubernetesRunner, kubernetesRunner.Run, and per-chunk local runner
Create and Run. -/
structure RunEnv where
  kubernetesCreateRes : Except GoErr Unit
  kubernetesRunRes : Except GoErr Unit
  localCreateRes : Nat → Except GoErr Unit
  localRunRes : Nat → Except GoErr Unit

/-- How Run dispatched the work: one kubernetes job, or a list of local chunk
runners each recorded with the config bytes it was handed. -/
inductive Dispatch where
  | kubernetes (cfg : KubernetesRunnerConfig)
  | localW (chunkConfigs : List SerializedConfig)
deriving DecidableEq

/-- The observable outcome of a successful MaterializeRunner.Run. -/
structure RunOutcome where
  numRows : Int
  chunkSize : Int
  numChunks : Int
  config : MaterializedChunkRunnerConfig
  dispatch : Dispatch
deriving DecidableEq

/-- The LOCAL loop of Run (lines 126 to 140): for i in 0 ..< int(numChunks),
create a COPY_TO_ONLINE runner from the one serialized config and run it.
Returns the call trace and, on success, the list of configs handed out. -/
def localLoop (env : RunEnv) (cfg : SerializedConfig) (i : Nat) :
    Nat → List Call × Except GoErr (List SerializedConfig)
  | 0 => ([], .ok [])
  | k + 1 =>
    match env.localCreateRes i with
    | .error e => ([.localCreate i], .error ("local runner create: " ++ e))
    | .ok _ =>
      match env.localRunRes i with
      | .error e => ([.localCreate i, .localRun i], .error ("local runner run: " ++ e))
      | .ok _ =>
        let rest := localLoop env cfg (i + 1) k
        (.localCreate i :: .localRun i :: rest.1, Except.map (fun l => cfg :: l) rest.2)

/-- The single MaterializedChunkRunnerConfig value built by
MaterializeRunner.Run (lines 95 to 103 of the runner source). -/
def chunkConfig (m : MaterializeRunner) (mat : Materialization) (chunkSize : Int) :
    MaterializedChunkRunnerConfig :=
  { OnlineType := m.Online.typeTag
    OfflineType := m.Offline.typeTag
    OnlineConfig := m.Online.config
    OfflineConfig := m.Offline.config
    MaterializedID := mat.idRes
    ResourceID := m.ID
    ChunkSize := chunkSize }

/-- The tail of MaterializeRunner.Run once NumRows has succeeded: the chunk
arithmetic, the single chunk config, and the dispatch switch on the Cloud
tag.  The trace already contains the three provider calls made so far. -/
def MaterializeRunner.runDispatch (m : MaterializeRunner) (env : RunEnv)
    (mat : Materialization) (numRows : Int) : List Call × Except GoErr RunOutcome :=
  let p := chunkParams numRows
  let config := chunkConfig m mat p.1
  let pre : List Call := [.createMaterialization, .createTable, .numRows]
  if m.Cloud = KubernetesMaterializeRunner then
    let kubernetesConfig : KubernetesRunnerConfig :=
      { EnvVars := [("NAME", .str COPY_TO_ONLINE), ("CONFIG", .cfg config)]
        Image := WORKER_IMAGE
        NumTasks := p.2 }
    match env.kubernetesCreateRes with
    | .error e => (pre ++ [.kubernetesCreate], .error ("kubernetes runner: " ++ e))
    | .ok _ =>
      match env.kubernetesRunRes with
      | .error e =>
        (pre ++ [.kubernetesCreate, .kubernetesRun], .error ("kubernetes run: " ++ e))
      | .ok _ =>
        (pre ++ [.kubernetesCreate, .kubernetesRun],
         .ok { numRows := numRows, chunkSize := p.1, numChunks := p.2,
               config := config, dispatch := .kubernetes kubernetesConfig })
  else if m.Cloud = LocalMaterializeRunner then
    let loop := localLoop env config 0 p.2.toNat
    match loop.2 with
    | .error e => (pre ++ loop.1, .error e)
    | .ok configs =>
      (pre ++ loop.1,
       .ok { numRows := numRows, chunkSize := p.1, numChunks := p.2,
             config := config, dispatch := .localW configs })
  else
    (pre, .error "no valid job cloud set")

/-- MaterializeRunner.Run, embedded from the runner source with an explicit
call trace.  CreateMaterialization, then CreateTable (a TableAlreadyExists
error is swallowed), then NumRows, then the chunking and dispatch.  The final
watcher wiring carries no further provider effects and is represented by the
outcome. -/
def MaterializeRunner.Run (m : MaterializeRunner) (env : RunEnv) :
    List Call × Except GoErr RunOutcome :=
  match m.Offline.createMatRes with
  | .error e => ([.createMaterialization], .error e)
  | .ok mat =>
    match m.Online.createTableRes with
    | .failed e => ([.createMaterialization, .createTable], .error ("create table: " ++ e))
    | _ =>
      match mat.numRowsRes with
      | .error e => ([.createMaterialization, .createTable, .numRows], .error ("num rows: " ++ e))
      | .ok numRows => m.runDispatch env mat numRows

/-- A child completion watcher, modelled by the outcome its (blocking) Wait
call returns: none is success, some e is an error. -/
abbrev ChildWatcher := Option GoErr

/-- The WatcherMultiplex struct from the runner package. -/
structure WatcherMultiplex where
  CompletionList : List ChildWatcher

/-- The loop body of WatcherMultiplex.Wait (lines 50 to 57 of the runner
source): await each child in order and return the first error. -/
def waitLoop : List ChildWatcher → Option GoErr
  | [] => none
  | c :: rest =>
    match c with
    | some e => some e
    | none => waitLoop rest

/-- Instrumentation of the same loop: the number of children whose Wait was
invoked before WatcherMultiplex.Wait returned. -/
def waitAwaited : List ChildWatcher → Nat
  | [] => 0
  | c :: rest =>
    match c with
    | some _ => 1
    | none => 1 + waitAwaited rest

/-- WatcherMultiplex.Wait. -/
def WatcherMultiplex.Wait (w : WatcherMultiplex) : Option GoErr :=
  waitLoop w.CompletionList

/-- The number of children WatcherMultiplex.Wait awaits. -/
def WatcherMultiplex.awaited (w : WatcherMultiplex) : Nat :=
  waitAwaited w.CompletionList

/-- Resource status values (metadata package). -/
inductive Status where
  | created
  | pending
  | ready
  | readyOnline
  | failed
deriving DecidableEq

/-- Metadata resource kinds relevant to coordinator jobs. -/
inductive ResourceType where
  | sourceVariant
  | featureVariant
  | labelVariant
  | trainingSetVariant
deriving DecidableEq

/-- metadata.ResourceID: (name, variant, kind). -/
structure MetaResourceID where
  name : String
  variant : String
  rtype : ResourceType
deriving DecidableEq

/-- Coordinator-visible metadata state: a status per resource and the set of
outstanding job keys. -/
structure CoordinatorState where
  statuses : MetaResourceID → Status
  jobKeys : List MetaResourceID

/-- Modelled from the spec: the terminal success status per resource kind
(coordinator success routine, missing from the given sources).  Features use
ready_online after online materialization; all others use ready. -/
def successStatus : ResourceType → Status
  | .featureVariant => .readyOnline
  | .sourceVariant => .ready
  | .labelVariant => .ready
  | .trainingSetVariant => .ready

/-- Modelled from the spec: step 5 of the watch-for-new-jobs loop (coordinator
source, missing from the given sources).  On success of the per-kind routine
the coordinator sets the status to ready (ready_online for features) and
deletes the resource job key. -/
def completeJobSuccess (s : CoordinatorState) (id : MetaResourceID) : CoordinatorState :=
  { statuses := fun i => if i = id then successStatus i.rtype else s.statuses i
    jobKeys := s.jobKeys.filter (fun i => decide (i ≠ id)) }

/-- Coordinator.hasJob: whether the resource job key is present. -/
def hasJob (s : CoordinatorState) (id : MetaResourceID) : Bool :=
  decide (id ∈ s.jobKeys)

/-- Scans for the two-character closing brace marker: returns the characters
before the first closing marker and the characters after it, or none when the
marker is absent. -/
def findClose : List Char → Option (List Char × List Char)
  | '}' :: '}' :: rest => some ([], rest)
  | c :: rest =>
    match findClose rest with
    | none => none
    | some (k, r) => some (c :: k, r)
  | [] => none

/-- A template token: a literal character or a placeholder key. -/
inductive Tok where
  | lit (c : Char)
  | key (k : String)
deriving DecidableEq

/-- Modelled from the spec: template scanning (section 4.5; templateReplace is
in the coordinator source, missing from the given sources).  An opening
double-brace followed by a closing double-brace yields a placeholder key;
everything else is literal text, including an opening double-brace that is
never closed.  The fuel argument only serves structural recursion: every
recursive call strictly shortens the character list, so fuel equal to the
list length never runs out and the fuel-exhausted arm is unreachable. -/
def tokenizeFuel : Nat → List Char → List Tok
  | 0, _ => []
  | _ + 1, [] => []
  | fuel + 1, '{' :: '{' :: rest =>
    match findClose rest with
    | none => ('{' :: '{' :: rest).map .lit
    | some (k, r) => .key (String.mk k) :: tokenizeFuel fuel r
  | fuel + 1, c :: rest => .lit c :: tokenizeFuel fuel rest

/-- The token list of a template. -/
def tokenize (t : List Char) : List Tok :=
  tokenizeFuel t.length t

/-- The key of a placeholder token, none for a literal. -/
def tokKey : Tok → Option String
  | .lit _ => none
  | .key k => some k

/-- The placeholder keys occurring in a template, in order. -/
def placeholderKeys (t : List Char) : List String :=
  (tokenize t).filterMap tokKey

/-- A replacement mapping from placeholder key to identifier. -/
abbrev Mapping := List (String × String)

/-- The substitution of one token: a literal stays, a placeholder becomes its
identifier wrapped in double quotes (absent keys substitute the empty
identifier; templateReplace never reaches that case). -/
def substTok (m : Mapping) : Tok → List Char
  | .lit c => [c]
  | .key k => '"' :: ((m.lookup k).getD "").data ++ ['"']

/-- Total substitution over a token list. -/
def templateSubstToks (m : Mapping) : List Tok → List Char
  | [] => []
  | t :: rest => substTok m t ++ templateSubstToks m rest

/-- The fully substituted template. -/
def templateSubst (m : Mapping) (t : List Char) : List Char :=
  templateSubstToks m (tokenize t)

/-- Modelled from the spec: the substitution pass of templateReplace over the
scanned tokens; a placeholder key absent from the mapping is an
unresolved-reference error naming the key. -/
def templateReplaceToks (m : Mapping) : List Tok → Except GoErr (List Char)
  | [] => .ok []
  | .lit c :: rest => Except.map (fun r => c :: r) (templateReplaceToks m rest)
  | .key k :: rest =>
    match m.lookup k with
    | none => .error ("value " ++ k ++ " not found in replacements")
    | some v => Except.map (fun r => '"' :: v.data ++ '"' :: r) (templateReplaceToks m rest)

/-- Modelled from the spec: templateReplace (coordinator source, missing from
the given sources).  Substitutes every placeholder occurrence with its mapped
identifier wrapped in double quotes, or fails on the first unresolved key. -/
def templateReplace (t : List Char) (m : Mapping) : Except GoErr (List Char) :=
  templateReplaceToks m (tokenize t)

/-- A metadata source entry as relevant to dependency resolution: its status
and its provider-side table name. -/
structure SourceEntry where
  status : Status
  providerTableName : String
deriving DecidableEq

/-- A metadata (name, variant) pair. -/
abbrev NameVariant := String × String

/-- The metadata store restricted to source variants, as an association list. -/
abbrev MetadataStore := List (NameVariant × SourceEntry)

/-- Modelled from the spec: mapNameVariantsToTables (coordinator source,
missing from the given sources).  Resolves each dependency to its
provider-side table name, erring when a dependency is absent from metadata or
has a status other than ready. -/
def mapNameVariantsToTables (md : MetadataStore) :
    List NameVariant → Except GoErr (List (NameVariant × String))
  | [] => .ok []
  | nv :: rest =>
    match md.lookup nv with
    | none => .error "could not get source variant"
    | some entry =>
      if entry.status = Status.ready then
        Except.map (fun tbl => (nv, entry.providerTableName) :: tbl)
          (mapNameVariantsToTables md rest)
      else
        .error "source variant not ready"

/-- Offline-store calls made by the transformation job. -/
inductive CoordCall where
  | createTransformation (sql : List Char)
deriving DecidableEq

/-- The mapping key for a dependency: name dot variant. -/
def tableKey (nv : NameVariant) : String :=
  nv.1 ++ "." ++ nv.2

/-- Modelled from the spec: the SQL transformation routine (coordinator
source, missing from the given sources).  Resolve every dependency through
mapNameVariantsToTables, rewrite the query through templateReplace, and only
then call CreateTransformation; any earlier error aborts with no provider
call. -/
def runSQLTransformationJob (md : MetadataStore) (deps : List NameVariant)
    (query : List Char) : List CoordCall × Except GoErr Unit :=
  match mapNameVariantsToTables md deps with
  | .error e => ([], .error e)
  | .ok tbls =>
    let mapping : Mapping := tbls.map (fun p => (tableKey p.1, p.2))
    match templateReplace query mapping with
    | .error e => ([], .error e)
    | .ok sql => ([.createTransformation sql], .ok ())

/-- Modelled from the spec: the runner factory registry (section 4.3; the
registry lives in the runner package, missing from the given sources).  A
factory maps serialized config bytes to a runner; runners are abstract
handles. -/
structure RunnerFactoryRegistry where
  entries : List (String × (String → Except GoErr String))

/-- Modelled from the spec: runner.Create, which errors on a name absent from
the registry. -/
def createRunner (reg : RunnerFactoryRegistry) (name : String) (config : String) :
    Except GoErr String :=
  match reg.entries.lookup name with
  | none => .error ("factory does not exist: " ++ name)
  | some factory => factory config

/-- Cluster submission side effects of a job spawner. -/
inductive SpawnEffect where
  | submittedClusterJob
deriving DecidableEq

/-- Modelled from the spec: MemoryJobSpawner.GetJobRunner (coordinator source,
missing from the given sources): look the factory up in the registry and
instantiate in process; no cluster submission ever happens. -/
def memoryGetJobRunner (reg : RunnerFactoryRegistry) (name : String) (config : String) :
    List SpawnEffect × Except GoErr String :=
  match createRunner reg name config with
  | .error e => ([], .error e)
  | .ok r => ([], .ok r)

/-- Modelled from the spec: KubernetesJobSpawner.GetJobRunner (coordinator
source, missing from the given sources): unknown runner names must error
before any submission; a known name builds the batch job object and submits
it. -/
def kubernetesGetJobRunner (reg : RunnerFactoryRegistry) (name : String)
    (config : String) (_etcdEndpoints : List String) (_id : MetaResourceID) :
    List SpawnEffect × Except GoErr String :=
  match reg.entries.lookup name with
  | none => ([], .error ("factory does not exist: " ++ name))
  | some _ => ([.submittedClusterJob], .ok ("cluster job " ++ name ++ " for config " ++ config))

/-- The given MaterializeRunner with its online CreateTable result replaced. -/
def withCreateTableRes (m : MaterializeRunner) (r : CreateTableRes) : MaterializeRunner :=
  { m with Online := { m.Online with createTableRes := r } }

/-- The configs handed to local chunk runners by a dispatch. -/
def localConfigs : Dispatch → List SerializedConfig
  | .kubernetes _ => []
  | .localW l => l

/-- The configs handed to local chunk runners over a whole run (empty when the
run failed or dispatched to the cluster). -/
def runLocalConfigs (m : MaterializeRunner) (env : RunEnv) : List SerializedConfig :=
  match (m.Run env).2 with
  | .ok out => localConfigs out.dispatch
  | .error _ => []

/-- The numChunks a successful run computed, none when the run failed. -/
def runNumChunks (m : MaterializeRunner) (env : RunEnv) : Option Int :=
  match (m.Run env).2 with
  | .ok out => some out.numChunks
  | .error _ => none

/-- An environment in which every external collaborator succeeds. -/
def envOk : RunEnv :=
  { kubernetesCreateRes := .ok ()
    kubernetesRunRes := .ok ()
    localCreateRes := fun _ => .ok ()
    localRunRes := fun _ => .ok () }

/-- A healthy online store fixture. -/
def onlineOk : OnlineStore :=
  { typeTag := "REDIS_ONLINE", config := "redis config", createTableRes := .ok }

/-- A materialization of 5 rows. -/
def mat5 : Materialization :=
  { idRes := "materialization five", numRowsRes := .ok 5 }

/-- An offline store producing the 5-row materialization. -/
def offline5 : OfflineStore :=
  { typeTag := "POSTGRES_OFFLINE", config := "postgres config", createMatRes := .ok mat5 }

/-- A feature resource ID fixture. -/
def feature5 : ProviderResourceID :=
  { Name := "feat", Variant := "v", RType := "Feature" }

/-- A LOCAL-cloud materialize runner over the 5-row materialization. -/
def runnerLocal5 : MaterializeRunner :=
  { Online := onlineOk, Offline := offline5, ID := feature5, VType := "Int",
    Cloud := LocalMaterializeRunner }

/-- The chunk config the 5-row run builds. -/
def cfg5 : MaterializedChunkRunnerConfig :=
  { OnlineType := "REDIS_ONLINE", OfflineType := "POSTGRES_OFFLINE",
    OnlineConfig := "redis config", OfflineConfig := "postgres config",
    MaterializedID := "materialization five", ResourceID := feature5, ChunkSize := 5 }

/-- The outcome of the 5-row run. -/
def out5 : RunOutcome :=
  { numRows := 5, chunkSize := 5, numChunks := 1, config := cfg5,
    dispatch := .localW [cfg5] }

/-- The call trace of the 5-row run. -/
def trace5 : List Call :=
  [.createMaterialization, .createTable, .numRows, .localCreate 0, .localRun 0]

/-- A materialization of 0 rows. -/
def mat0 : Materialization :=
  { idRes := "materialization zero", numRowsRes := .ok 0 }

/-- An offline store producing the empty materialization. -/
def offline0 : OfflineStore :=
  { typeTag := "POSTGRES_OFFLINE", config := "postgres config", createMatRes := .ok mat0 }

/-- A LOCAL-cloud materialize runner over the empty materialization. -/
def runner0 : MaterializeRunner :=
  { Online := onlineOk, Offline := offline0, ID := feature5, VType := "Int",
    Cloud := LocalMaterializeRunner }

/-- A materialization of 2048 rows. -/
def mat2048 : Materialization :=
  { idRes := "materialization big", numRowsRes := .ok 2048 }

/-- An offline store producing the 2048-row materialization. -/
def offline2048 : OfflineStore :=
  { typeTag := "POSTGRES_OFFLINE", config := "postgres config", createMatRes := .ok mat2048 }

/-- A LOCAL-cloud materialize runner over the 2048-row materialization. -/
def runner2048 : MaterializeRunner :=
  { Online := onlineOk, Offline := offline2048, ID := feature5, VType := "Int",
    Cloud := LocalMaterializeRunner }

/-- The chunk config the 2048-row run builds. -/
def cfg2048 : MaterializedChunkRunnerConfig :=
  { OnlineType := "REDIS_ONLINE", OfflineType := "POSTGRES_OFFLINE",
    OnlineConfig := "redis config", OfflineConfig := "postgres config",
    MaterializedID := "materialization big", ResourceID := feature5, ChunkSize := 1024 }

/-- The outcome of the 2048-row run: two chunks, both handed the same config. -/
def out2048 : RunOutcome :=
  { numRows := 2048, chunkSize := 1024, numChunks := 2, config := cfg2048,
    dispatch := .localW [cfg2048, cfg2048] }

/-- The call trace of the 2048-row run. -/
def trace2048 : List Call :=
  [.createMaterialization, .createTable, .numRows,
   .localCreate 0, .localRun 0, .localCreate 1, .localRun 1]

/-- A materialize runner whose cloud tag is neither KUBERNETES nor LOCAL. -/
def runnerAzure : MaterializeRunner :=
  { Online := onlineOk, Offline := offline5, ID := feature5, VType := "Int",
    Cloud := "AZURE" }

/-- The template of the repository test TestTemplateReplace. -/
def testTemplate : List Char :=
  "Some example text \x7b\x7bname1.variant1\x7d\x7d and more \x7b\x7bname2.variant2\x7d\x7d".data

/-- The replacements of the repository test TestTemplateReplace. -/
def testReplacements : Mapping :=
  [("name1.variant1", "replacement1"), ("name2.variant2", "replacement2")]

/-- The replacements of the repository test TestTemplateReplaceError, missing
the second placeholder key. -/
def wrongReplacements : Mapping :=
  [("name1.variant1", "replacement1"), ("name3.variant3", "replacement2")]

/-- A metadata store holding one source variant that is not yet ready. -/
def notReadyMetadata : MetadataStore :=
  [(("src1", ""), { status := .created, providerTableName := "tbl1" })]

/-- A dependency list naming the not-ready source variant. -/
def notReadyDeps : List NameVariant :=
  [("src1", "")]

/-- An empty runner factory registry. -/
def emptyRegistry : RunnerFactoryRegistry :=
  { entries := [] }

/-- A resource ID fixture for the spawner witness. -/
def ghostResource : MetaResourceID :=
  { name := "ghost_resource", variant := "", rtype := .sourceVariant }

/-- The 5-row LOCAL run evaluates end to end as expected: one chunk of size
5, handed the single config. -/
theorem run_five_rows_eval : runnerLocal5.Run envOk = (trace5, .ok out5) := rfl

/-- The 2048-row LOCAL run evaluates end to end as expected: two chunks of
size 1024, both handed the same config. -/
theorem run_big_eval : runner2048.Run envOk = (trace2048, .ok out2048) := rfl

/-- Closed form of the chunk arithmetic of Run for nonnegative row counts. -/
theorem chunkParams_spec (n : Int) (hn : 0 ≤ n) :
    (chunkParams n).1 = min n 1024 ∧ (chunkParams n).2 = max 1 ((n + 1023) / 1024) := by
  have htd : Int.tdiv n 1024 = n / 1024 := Int.tdiv_eq_ediv hn (by norm_num)
  simp only [chunkParams, MAXIMUM_CHUNK_ROWS, htd]
  split_ifs with h1 h2 h3 h4 <;> simp_all <;> omega

/-- Bounds of the chunk arithmetic of Run for nonnegative row counts: chunk
size at most 1024, the chunks cover all rows, and all chunks but the last
are full. -/
theorem chunkParams_bounds (n : Int) (hn : 0 ≤ n) :
    (chunkParams n).1 ≤ 1024 ∧ n ≤ (chunkParams n).2 * (chunkParams n).1 ∧
      ((chunkParams n).2 - 1) * (chunkParams n).1 ≤ n := by
  have htd : Int.tdiv n 1024 = n / 1024 := Int.tdiv_eq_ediv hn (by norm_num)
  simp only [chunkParams, MAXIMUM_CHUNK_ROWS, htd]
  split_ifs with h1 h2 h3 h4 <;> simp_all <;> omega

/-- A successful local loop hands every chunk runner the one config. -/
theorem localLoop_ok_replicate (env : RunEnv) (cfg : SerializedConfig) :
    ∀ (k i : Nat) (l : List SerializedConfig),
      (localLoop env cfg i k).2 = .ok l → l = List.replicate k cfg := by
  intro k
  induction k with
  | zero =>
    intro i l h
    simp [localLoop] at h
    simp [← h]
  | succ k ih =>
    intro i l h
    simp only [localLoop] at h
    cases hc : env.localCreateRes i with
    | error e => simp only [hc] at h; simp at h
    | ok u =>
      simp only [hc] at h
      cases hr : env.localRunRes i with
      | error e => simp only [hr] at h; simp at h
      | ok u2 =>
        simp only [hr] at h
        cases hrec : (localLoop env cfg (i + 1) k).2 with
        | error e => simp [hrec, Except.map] at h
        | ok l2 =>
          simp only [hrec, Except.map, Except.ok.injEq] at h
          rw [← h, ih (i + 1) l2 hrec]
          simp [List.replicate_succ]

/-- Inversion of the dispatch tail of Run: a successful outcome records the
row count, the chunk arithmetic, the single built config, and in the LOCAL
case hands that same config to every chunk runner. -/
theorem runDispatch_ok (m : MaterializeRunner) (env : RunEnv) (mat : Materialization)
    (n : Int) (tr : List Call) (out : RunOutcome)
    (h : m.runDispatch env mat n = (tr, .ok out)) :
    out.numRows = n ∧ out.chunkSize = (chunkParams n).1 ∧
      out.numChunks = (chunkParams n).2 ∧
      out.config = chunkConfig m mat (chunkParams n).1 ∧
      ∀ l, out.dispatch = .localW l →
        l = List.replicate (chunkParams n).2.toNat (chunkConfig m mat (chunkParams n).1) := by
  by_cases hk : m.Cloud = KubernetesMaterializeRunner
  · simp only [MaterializeRunner.runDispatch] at h
    rw [if_pos hk] at h
    cases hc : env.kubernetesCreateRes with
    | error e => simp only [hc] at h; simp at h
    | ok u =>
      simp only [hc] at h
      cases hr : env.kubernetesRunRes with
      | error e => simp only [hr] at h; simp at h
      | ok u2 =>
        simp only [hr, Prod.mk.injEq, Except.ok.injEq] at h
        obtain ⟨h1, h2⟩ := h
        rw [← h2]
        refine ⟨rfl, rfl, rfl, rfl, ?_⟩
        intro l hl
        simp at hl
  · by_cases hl : m.Cloud = LocalMaterializeRunner
    · simp only [MaterializeRunner.runDispatch] at h
      rw [if_neg hk, if_pos hl] at h
      cases hloop : (localLoop env (chunkConfig m mat (chunkParams n).1) 0
          (chunkParams n).2.toNat).2 with
      | error e => simp only [hloop] at h; simp at h
      | ok configs =>
        simp only [hloop, Prod.mk.injEq, Except.ok.injEq] at h
        obtain ⟨h1, h2⟩ := h
        rw [← h2]
        refine ⟨rfl, rfl, rfl, rfl, ?_⟩
        intro l hlw
        simp only [Dispatch.localW.injEq] at hlw
        rw [← hlw]
        exact localLoop_ok_replicate env _ _ 0 configs hloop
    · simp only [MaterializeRunner.runDispatch] at h
      rw [if_neg hk, if_neg hl] at h
      simp at h

/-- Inversion of Run: a successful run passed CreateMaterialization and
NumRows and ended in the dispatch tail. -/
theorem Run_ok_inv (m : MaterializeRunner) (env : RunEnv) (tr : List Call)
    (out : RunOutcome) (h : m.Run env = (tr, .ok out)) :
    ∃ mat, m.Offline.createMatRes = .ok mat ∧ mat.numRowsRes = .ok out.numRows ∧
      m.runDispatch env mat out.numRows = (tr, .ok out) := by
  cases hmat : m.Offline.createMatRes with
  | error e => simp [MaterializeRunner.Run, hmat] at h
  | ok mat =>
    refine ⟨mat, rfl, ?_⟩
    cases hct : m.Online.createTableRes with
    | failed e => simp [MaterializeRunner.Run, hmat, hct] at h
    | ok =>
      cases hnr : mat.numRowsRes with
      | error e => simp [MaterializeRunner.Run, hmat, hct, hnr] at h
      | ok n =>
        simp only [MaterializeRunner.Run, hmat, hct, hnr] at h
        have hrows := (runDispatch_ok m env mat n tr out h).1
        rw [hrows]
        exact ⟨rfl, h⟩
    | alreadyExists =>
      cases hnr : mat.numRowsRes with
      | error e => simp [MaterializeRunner.Run, hmat, hct, hnr] at h
      | ok n =>
        simp only [MaterializeRunner.Run, hmat, hct, hnr] at h
        have hrows := (runDispatch_ok m env mat n tr out h).1
        rw [hrows]
        exact ⟨rfl, h⟩

/-- C1 (counterexample): the claim states that a materialization of zero rows
yields numChunks equal to 0, but the run over the empty materialization
computes numChunks equal to 1 (the first branch of the chunk arithmetic also
captures numRows equal to 0 and sets one chunk of size 0). -/
theorem run_zero_rows_counterexample :
    runNumChunks runner0 envOk = some 1 ∧ (1 : Int) ≠ 0 := by
  exact ⟨rfl, by decide⟩

/-- C1 (amended): every successful run with a nonnegative row count computes
chunkSize as the minimum of the row count and 1024 and numChunks as the
ceiling of rows over 1024 taken at least 1; in particular a run over zero
rows computes numChunks equal to 1, not 0. -/
theorem run_chunk_arithmetic (m : MaterializeRunner) (env : RunEnv) (tr : List Call)
    (out : RunOutcome) (h : m.Run env = (tr, .ok out)) (hn : 0 ≤ out.numRows) :
    out.chunkSize = min out.numRows 1024 ∧
      out.numChunks = max 1 ((out.numRows + 1023) / 1024) := by
  obtain ⟨mat, hmat, hnr, hd⟩ := Run_ok_inv m env tr out h
  have hdo := runDispatch_ok m env mat out.numRows tr out hd
  have hspec := chunkParams_spec out.numRows hn
  exact ⟨hdo.2.1.trans hspec.1, hdo.2.2.1.trans hspec.2⟩

/-- Witness for the amended chunk arithmetic at the concrete 5-row run. -/
theorem run_chunk_arithmetic_witness :
    runnerLocal5.Run envOk = (trace5, .ok out5) ∧ (0 : Int) ≤ out5.numRows ∧
      out5.chunkSize = min out5.numRows 1024 ∧
      out5.numChunks = max 1 ((out5.numRows + 1023) / 1024) := by
  have h : runnerLocal5.Run envOk = (trace5, .ok out5) := rfl
  have hc := run_chunk_arithmetic runnerLocal5 envOk trace5 out5 h (by decide)
  exact ⟨h, by decide, hc.1, hc.2⟩

/-- C7 (confirmed): for every successful run with a nonnegative row count,
the chunk size is at most 1024, the chunks cover all rows, and at most one
chunk is partial (every chunk but the last is full). -/
theorem run_chunk_invariants (m : MaterializeRunner) (env : RunEnv) (tr : List Call)
    (out : RunOutcome) (h : m.Run env = (tr, .ok out)) (hn : 0 ≤ out.numRows) :
    out.chunkSize ≤ 1024 ∧ out.numRows ≤ out.numChunks * out.chunkSize ∧
      (out.numChunks - 1) * out.chunkSize ≤ out.numRows := by
  obtain ⟨mat, hmat, hnr, hd⟩ := Run_ok_inv m env tr out h
  have hdo := runDispatch_ok m env mat out.numRows tr out hd
  have hb := chunkParams_bounds out.numRows hn
  rw [hdo.2.1, hdo.2.2.1]
  exact hb

/-- Witness for the chunk invariants at the concrete 2048-row run. -/
theorem run_chunk_invariants_witness :
    runner2048.Run envOk = (trace2048, .ok out2048) ∧ (0 : Int) ≤ out2048.numRows ∧
      out2048.chunkSize ≤ 1024 ∧
      out2048.numRows ≤ out2048.numChunks * out2048.chunkSize ∧
      (out2048.numChunks - 1) * out2048.chunkSize ≤ out2048.numRows := by
  have h : runner2048.Run envOk = (trace2048, .ok out2048) := rfl
  have hc := run_chunk_invariants runner2048 envOk trace2048 out2048 h (by decide)
  exact ⟨h, by decide, hc.1, hc.2.1, hc.2.2⟩

/-- C6 (counterexample): the 2048-row local run fans out two chunk workers
yet hands them configurations that are not pairwise distinct; the built
config carries no chunk index, so distinct workers do not receive distinct
chunk indices. -/
theorem chunk_config_counterexample :
    (runLocalConfigs runner2048 envOk).length = 2 ∧
      ¬ (runLocalConfigs runner2048 envOk).Nodup := by
  constructor
  · rfl
  · decide

/-- C6 (amended): every successful run builds a single chunk config
referencing the materialization ID, both store configurations, the resource
ID and the chunk size, but no chunk index, and in the LOCAL case hands that
same config to every chunk worker. -/
theorem chunk_config_shared (m : MaterializeRunner) (env : RunEnv) (tr : List Call)
    (out : RunOutcome) (mat : Materialization)
    (h : m.Run env = (tr, .ok out)) (hmat : m.Offline.createMatRes = .ok mat) :
    out.config.MaterializedID = mat.idRes ∧
      out.config.OnlineConfig = m.Online.config ∧
      out.config.OfflineConfig = m.Offline.config ∧
      out.config.ResourceID = m.ID ∧
      out.config.ChunkSize = out.chunkSize ∧
      ∀ l, out.dispatch = .localW l → l = List.replicate out.numChunks.toNat out.config := by
  obtain ⟨mat2, hmat2, hnr, hd⟩ := Run_ok_inv m env tr out h
  rw [hmat] at hmat2
  injection hmat2 with he
  subst he
  have hdo := runDispatch_ok m env mat out.numRows tr out hd
  have hcfg := hdo.2.2.2.1
  refine ⟨by rw [hcfg]; rfl, by rw [hcfg]; rfl, by rw [hcfg]; rfl, by rw [hcfg]; rfl, ?_, ?_⟩
  · rw [hcfg, hdo.2.1]
    rfl
  · intro l hl
    rw [hdo.2.2.1, hcfg]
    exact hdo.2.2.2.2 l hl

/-- Witness for the amended chunk-config claim at the concrete 2048-row run:
both chunk workers receive the one built config. -/
theorem chunk_config_shared_witness :
    runner2048.Run envOk = (trace2048, .ok out2048) ∧
      offline2048.createMatRes = .ok mat2048 ∧
      out2048.config.MaterializedID = mat2048.idRes ∧
      out2048.config.OnlineConfig = onlineOk.config ∧
      out2048.config.OfflineConfig = offline2048.config ∧
      [cfg2048, cfg2048] = List.replicate out2048.numChunks.toNat out2048.config := by
  have h : runner2048.Run envOk = (trace2048, .ok out2048) := rfl
  have hmat : runner2048.Offline.createMatRes = .ok mat2048 := rfl
  have hc := chunk_config_shared runner2048 envOk trace2048 out2048 mat2048 h hmat
  exact ⟨h, hmat, hc.1, hc.2.1, hc.2.2.1, hc.2.2.2.2.2 [cfg2048, cfg2048] rfl⟩

/-- C8 (confirmed): a typed table-already-exists result from the online
CreateTable leaves the run identical to the success case, while any other
CreateTable failure aborts the run with a wrapped create-table error. -/
theorem create_table_error_handling (m : MaterializeRunner) (env : RunEnv) :
    (withCreateTableRes m .alreadyExists).Run env = (withCreateTableRes m .ok).Run env ∧
      ∀ e mat, m.Offline.createMatRes = .ok mat →
        (withCreateTableRes m (.failed e)).Run env =
          ([.createMaterialization, .createTable], .error ("create table: " ++ e)) := by
  obtain ⟨⟨ot, oc, ocr⟩, ⟨ft, fc, fm⟩, idv, vt, cl⟩ := m
  constructor
  · cases fm with
    | error e => rfl
    | ok mat => rfl
  · intro e mat hmat
    simp only at hmat
    subst hmat
    rfl

/-- Witness for CreateTable error handling at the concrete 5-row runner. -/
theorem create_table_error_handling_witness :
    (withCreateTableRes runnerLocal5 .alreadyExists).Run envOk =
        (withCreateTableRes runnerLocal5 .ok).Run envOk ∧
      runnerLocal5.Offline.createMatRes = .ok mat5 ∧
      (withCreateTableRes runnerLocal5 (.failed "boom")).Run envOk =
        ([.createMaterialization, .createTable], .error ("create table: " ++ "boom")) := by
  have hmat : runnerLocal5.Offline.createMatRes = .ok mat5 := rfl
  have hc := create_table_error_handling runnerLocal5 envOk
  exact ⟨hc.1, hmat, hc.2 "boom" mat5 hmat⟩

/-- C10 (confirmed): a run whose cloud tag is neither KUBERNETES nor LOCAL
fails with the no-valid-job-cloud error, but only after CreateMaterialization
and CreateTable have already been called, so those provider side effects
happen even though the run errors. -/
theorem invalid_cloud_after_side_effects (m : MaterializeRunner) (env : RunEnv)
    (mat : Materialization) (n : Int)
    (hmat : m.Offline.createMatRes = .ok mat)
    (hct : m.Online.createTableRes = CreateTableRes.ok ∨
      m.Online.createTableRes = CreateTableRes.alreadyExists)
    (hnr : mat.numRowsRes = .ok n)
    (hk : m.Cloud ≠ KubernetesMaterializeRunner)
    (hl : m.Cloud ≠ LocalMaterializeRunner) :
    m.Run env = ([.createMaterialization, .createTable, .numRows],
        .error "no valid job cloud set") ∧
      Call.createMaterialization ∈ (m.Run env).1 ∧ Call.createTable ∈ (m.Run env).1 := by
  have hrun : m.Run env = ([.createMaterialization, .createTable, .numRows],
      .error "no valid job cloud set") := by
    cases hct with
    | inl hok =>
      simp only [MaterializeRunner.Run, hmat, hok, hnr, MaterializeRunner.runDispatch]
      rw [if_neg hk, if_neg hl]
    | inr hae =>
      simp only [MaterializeRunner.Run, hmat, hae, hnr, MaterializeRunner.runDispatch]
      rw [if_neg hk, if_neg hl]
  refine ⟨hrun, ?_, ?_⟩
  · rw [hrun]
    simp
  · rw [hrun]
    simp

/-- Witness for the invalid-cloud claim at a runner tagged AZURE. -/
theorem invalid_cloud_after_side_effects_witness :
    runnerAzure.Offline.createMatRes = .ok mat5 ∧
      runnerAzure.Online.createTableRes = CreateTableRes.ok ∧
      mat5.numRowsRes = .ok 5 ∧
      runnerAzure.Cloud ≠ KubernetesMaterializeRunner ∧
      runnerAzure.Cloud ≠ LocalMaterializeRunner ∧
      runnerAzure.Run envOk = ([.createMaterialization, .createTable, .numRows],
        .error "no valid job cloud set") ∧
      Call.createMaterialization ∈ (runnerAzure.Run envOk).1 ∧
      Call.createTable ∈ (runnerAzure.Run envOk).1 := by
  have hc := invalid_cloud_after_side_effects runnerAzure envOk mat5 5 rfl (.inl rfl) rfl
    (by decide) (by decide)
  exact ⟨rfl, rfl, rfl, by decide, by decide, hc.1, hc.2.1, hc.2.2⟩

/-- The wait loop returns the first error in child order. -/
theorem waitLoop_eq_findSome (l : List ChildWatcher) :
    waitLoop l = l.findSome? (fun c => c) := by
  induction l with
  | nil => rfl
  | cons c rest ih => cases c <;> simp [waitLoop, List.findSome?, ih]

/-- The wait loop awaits children only up to and including the first error. -/
theorem waitAwaited_eq (l : List ChildWatcher) :
    waitAwaited l =
      min ((l.takeWhile fun c => c.isNone).length + 1) l.length := by
  induction l with
  | nil => simp [waitAwaited]
  | cons c rest ih =>
    cases c with
    | none =>
      simp only [waitAwaited, List.takeWhile_cons, Option.isNone_none, if_true,
        List.length_cons, ih]
      omega
    | some e =>
      simp [waitAwaited, List.takeWhile_cons, Option.isNone]

/-- C3 (counterexample): a multiplex of two children whose first child errors
returns that first error after awaiting only one child, not both, so Wait
does not await every child watcher to completion when a child errors. -/
theorem multiplex_wait_counterexample :
    WatcherMultiplex.Wait ⟨[some "first boom", none]⟩ = some "first boom" ∧
      WatcherMultiplex.awaited ⟨[some "first boom", none]⟩ = 1 ∧
      (WatcherMultiplex.mk [some "first boom", none]).CompletionList.length = 2 ∧
      WatcherMultiplex.awaited ⟨[some "first boom", none]⟩ ≠
        (WatcherMultiplex.mk [some "first boom", none]).CompletionList.length := by
  exact ⟨rfl, rfl, rfl, by decide⟩

/-- C3 (amended): Wait returns the first child error in list order, and it
awaits children sequentially only up to and including the first erroring
child; every child is awaited exactly when no child before the last errors. -/
theorem multiplex_wait_first_error (w : WatcherMultiplex) :
    w.Wait = w.CompletionList.findSome? (fun c => c) ∧
      w.awaited =
        min ((w.CompletionList.takeWhile fun c => c.isNone).length + 1)
          w.CompletionList.length :=
  ⟨waitLoop_eq_findSome w.CompletionList, waitAwaited_eq w.CompletionList⟩

/-- C2 (confirmed, modelled from the spec): when the job routine of a
resource completes successfully the coordinator sets the status to
ready_online exactly for features and to ready for every other kind, and
deletes the resource job key, so the job key is absent afterwards. -/
theorem job_success_sets_status_and_deletes_key (s : CoordinatorState) (id : MetaResourceID) :
    (completeJobSuccess s id).statuses id =
      (if id.rtype = ResourceType.featureVariant then Status.readyOnline else Status.ready) ∧
      hasJob (completeJobSuccess s id) id = false := by
  constructor
  · simp only [completeJobSuccess, if_pos rfl]
    cases hid : id.rtype <;> simp [successStatus, hid]
  · simp [hasJob, completeJobSuccess, List.mem_filter]

/-- Substituting a token list with every key resolvable succeeds with the
full substitution. -/
theorem templateReplaceToks_ok (m : Mapping) :
    ∀ toks : List Tok, (∀ k ∈ toks.filterMap tokKey, (m.lookup k).isSome) →
      templateReplaceToks m toks = .ok (templateSubstToks m toks) := by
  intro toks
  induction toks with
  | nil => intro _; rfl
  | cons t rest ih =>
    intro hall
    cases t with
    | lit c =>
      have hall2 : ∀ k ∈ rest.filterMap tokKey, (m.lookup k).isSome := by
        intro k hk
        exact hall k (by simp [List.filterMap_cons, tokKey, hk])
      simp [templateReplaceToks, templateSubstToks, substTok, ih hall2, Except.map]
    | key k =>
      have hk : (m.lookup k).isSome := hall k (by simp [List.filterMap_cons, tokKey])
      obtain ⟨v, hv⟩ := Option.isSome_iff_exists.mp hk
      have hall2 : ∀ k2 ∈ rest.filterMap tokKey, (m.lookup k2).isSome := by
        intro k2 hk2
        exact hall k2 (by simp [List.filterMap_cons, tokKey, hk2])
      simp [templateReplaceToks, hv, templateSubstToks, substTok, ih hall2, Except.map]

/-- Substituting a token list with some key unresolvable errors. -/
theorem templateReplaceToks_err (m : Mapping) :
    ∀ toks : List Tok, (∃ k ∈ toks.filterMap tokKey, m.lookup k = none) →
      ∃ e, templateReplaceToks m toks = .error e := by
  intro toks
  induction toks with
  | nil => intro h; simp at h
  | cons t rest ih =>
    intro h
    cases t with
    | lit c =>
      have h2 : ∃ k ∈ rest.filterMap tokKey, m.lookup k = none := by
        simpa [List.filterMap_cons, tokKey] using h
      obtain ⟨e, he⟩ := ih h2
      exact ⟨e, by simp [templateReplaceToks, he, Except.map]⟩
    | key k0 =>
      cases hv : m.lookup k0 with
      | none =>
        exact ⟨"value " ++ k0 ++ " not found in replacements",
          by simp [templateReplaceToks, hv]⟩
      | some v =>
        have h2 : ∃ k ∈ rest.filterMap tokKey, m.lookup k = none := by
          simp only [List.filterMap_cons, tokKey] at h
          obtain ⟨k, hk, hnone⟩ := h
          rcases List.mem_cons.mp hk with rfl | hk2
          · rw [hv] at hnone
            cases hnone
          · exact ⟨k, hk2, hnone⟩
        obtain ⟨e, he⟩ := ih h2
        exact ⟨e, by simp [templateReplaceToks, hv, he, Except.map]⟩

/-- C4 (confirmed, modelled from the spec): when every placeholder key of the
template has a mapping, templateReplace returns the template with each
occurrence replaced by its identifier wrapped in double quotes; when some
placeholder key has no mapping it returns an error, emitting no partially
substituted string. -/
theorem template_replace_correct (t : List Char) (m : Mapping) :
    ((∀ k ∈ placeholderKeys t, (m.lookup k).isSome) →
      templateReplace t m = .ok (templateSubst m t)) ∧
    ((∃ k ∈ placeholderKeys t, m.lookup k = none) →
      ∃ e, templateReplace t m = .error e) := by
  constructor
  · intro hall
    exact templateReplaceToks_ok m (tokenize t) hall
  · intro hex
    exact templateReplaceToks_err m (tokenize t) hex

/-- Witness for templateReplace at the template of the repository test. -/
theorem template_replace_correct_witness :
    (∀ k ∈ placeholderKeys testTemplate, (testReplacements.lookup k).isSome) ∧
      templateReplace testTemplate testReplacements =
        .ok (templateSubst testReplacements testTemplate) := by
  have hall : ∀ k ∈ placeholderKeys testTemplate, (testReplacements.lookup k).isSome := by
    decide
  exact ⟨hall, (template_replace_correct testTemplate testReplacements).1 hall⟩

/-- The modelled templateReplace reproduces the exact output asserted by the
repository test TestTemplateReplace. -/
theorem templateReplace_matches_test :
    templateReplace testTemplate testReplacements =
      .ok "Some example text \"replacement1\" and more \"replacement2\"".data := rfl

/-- The modelled templateReplace errors on the mapping of the repository test
TestTemplateReplaceError, naming the missing key. -/
theorem templateReplace_matches_test_error :
    templateReplace testTemplate wrongReplacements =
      .error "value name2.variant2 not found in replacements" := rfl

/-- Resolving a dependency list with an absent or not-ready entry errors. -/
theorem mapNameVariantsToTables_err (md : MetadataStore) :
    ∀ deps : List NameVariant,
      (∃ nv ∈ deps, md.lookup nv = none ∨
        ∃ entry, md.lookup nv = some entry ∧ entry.status ≠ Status.ready) →
      ∃ e, mapNameVariantsToTables md deps = .error e := by
  intro deps
  induction deps with
  | nil => intro h; simp at h
  | cons nv rest ih =>
    intro h
    obtain ⟨nv2, hmem, hbad⟩ := h
    rcases List.mem_cons.mp hmem with rfl | hmem2
    · cases hl : md.lookup nv2 with
      | none => exact ⟨"could not get source variant", by simp [mapNameVariantsToTables, hl]⟩
      | some entry =>
        rcases hbad with hnone | ⟨entry2, hsome, hstat⟩
        · rw [hl] at hnone
          cases hnone
        · rw [hl] at hsome
          injection hsome with he
          subst he
          exact ⟨"source variant not ready",
            by simp [mapNameVariantsToTables, hl, if_neg hstat]⟩
    · cases hl : md.lookup nv with
      | none => exact ⟨"could not get source variant", by simp [mapNameVariantsToTables, hl]⟩
      | some entry =>
        by_cases hst : entry.status = Status.ready
        · obtain ⟨e, he⟩ := ih ⟨nv2, hmem2, hbad⟩
          exact ⟨e, by simp [mapNameVariantsToTables, hl, hst, he, Except.map]⟩
        · exact ⟨"source variant not ready", by simp [mapNameVariantsToTables, hl, hst]⟩

/-- C5 (confirmed, modelled from the spec): whenever some listed dependency
is absent from metadata or not ready, mapNameVariantsToTables errors, and
consequently the transformation job errors without calling
CreateTransformation. -/
theorem dependency_gate (md : MetadataStore) (deps : List NameVariant) (query : List Char)
    (h : ∃ nv ∈ deps, md.lookup nv = none ∨
      ∃ entry, md.lookup nv = some entry ∧ entry.status ≠ Status.ready) :
    (∃ e, mapNameVariantsToTables md deps = .error e) ∧
      (runSQLTransformationJob md deps query).1 = [] ∧
      (∀ sql, CoordCall.createTransformation sql ∉ (runSQLTransformationJob md deps query).1) ∧
      ∃ e, (runSQLTransformationJob md deps query).2 = .error e := by
  obtain ⟨e, he⟩ := mapNameVariantsToTables_err md deps h
  refine ⟨⟨e, he⟩, ?_, ?_, ?_⟩
  · simp [runSQLTransformationJob, he]
  · intro sql
    simp [runSQLTransformationJob, he]
  · exact ⟨e, by simp [runSQLTransformationJob, he]⟩

/-- Witness for the dependency gate at a metadata store holding one
not-ready source variant. -/
theorem dependency_gate_witness :
    (∃ nv ∈ notReadyDeps, notReadyMetadata.lookup nv = none ∨
      ∃ entry, notReadyMetadata.lookup nv = some entry ∧ entry.status ≠ Status.ready) ∧
      (∃ e, mapNameVariantsToTables notReadyMetadata notReadyDeps = .error e) ∧
      (runSQLTransformationJob notReadyMetadata notReadyDeps testTemplate).1 = [] ∧
      ∃ e, (runSQLTransformationJob notReadyMetadata notReadyDeps testTemplate).2 =
        .error e := by
  have h : ∃ nv ∈ notReadyDeps, notReadyMetadata.lookup nv = none ∨
      ∃ entry, notReadyMetadata.lookup nv = some entry ∧ entry.status ≠ Status.ready :=
    ⟨("src1", ""), by decide, Or.inr ⟨⟨Status.created, "tbl1"⟩, rfl, by decide⟩⟩
  have hc := dependency_gate notReadyMetadata notReadyDeps testTemplate h
  exact ⟨h, hc.1, hc.2.1, hc.2.2.2⟩

/-- C9 (confirmed, modelled from the spec): a runner name absent from the
factory registry makes both GetJobRunner variants return an error with no
submission or other side effect. -/
theorem unknown_runner_errors (reg : RunnerFactoryRegistry) (name config : String)
    (eps : List String) (id : MetaResourceID)
    (h : reg.entries.lookup name = none) :
    memoryGetJobRunner reg name config = ([], .error ("factory does not exist: " ++ name)) ∧
      kubernetesGetJobRunner reg name config eps id =
        ([], .error ("factory does not exist: " ++ name)) := by
  constructor
  · simp [memoryGetJobRunner, createRunner, h]
  · simp [kubernetesGetJobRunner, h]

/-- Witness for the unknown-runner claim at the empty registry and the name
used by the repository tests. -/
theorem unknown_runner_errors_witness :
    emptyRegistry.entries.lookup "ghost_job" = none ∧
      memoryGetJobRunner emptyRegistry "ghost_job" "" =
        ([], .error ("factory does not exist: " ++ "ghost_job")) ∧
      kubernetesGetJobRunner emptyRegistry "ghost_job" "" ["localhost:2379"] ghostResource =
        ([], .error ("factory does not exist: " ++ "ghost_job")) := by
  have h : emptyRegistry.entries.lookup "ghost_job" = none := rfl
  have hc := unknown_runner_errors emptyRegistry "ghost_job" "" ["localhost:2379"]
    ghostResource h
  exact ⟨h, hc.1, hc.2⟩

end Featureform
